import Mathlib

/-!
Shallow embedding of `src/neodb/server.py` (the single source file of the
neodb-mcp adapter). JSON payloads are modelled by `JsonValue`, dynamic Python
values arising from tuple unpacking by `PyVal`, and raised Python exceptions
by `Except PyError`. Numbers are modelled as integers (no claim exercises
float payloads), and `repr` of strings omits Python escape rendering; neither
detail is observable by any claim below.
-/

/-- Parsed JSON value, as produced by `response.json()`. Object fields are a
key-value list in insertion order with distinct keys, as in a parsed dict. -/
inductive JsonValue where
  | null
  | bool (b : Bool)
  | num (n : Int)
  | str (s : String)
  | arr (elems : List JsonValue)
  | obj (fields : List (String × JsonValue))

/-- Python `repr`, as used by `str` on containers. -/
def pyRepr : JsonValue → String
  | .null => "None"
  | .bool true => "True"
  | .bool false => "False"
  | .num n => toString n
  | .str s => "\x27" ++ s ++ "\x27"
  | .arr elems => "[" ++ String.intercalate ", " (elems.attach.map (fun ⟨e, he⟩ => pyRepr e)) ++ "]"
  | .obj fields => "\x7b" ++ String.intercalate ", " (fields.attach.map (fun ⟨(k, v), hkv⟩ => "\x27" ++ k ++ "\x27: " ++ pyRepr v)) ++ "\x7d"
decreasing_by
  · have h := List.sizeOf_lt_of_mem he
    simp_wf
    omega
  · have h := List.sizeOf_lt_of_mem hkv
    simp [Prod.mk.sizeOf_spec] at h
    simp_wf
    omega

/-- Python `str()`, as applied by f-string interpolation. -/
def pyStr : JsonValue → String
  | .str s => s
  | v => pyRepr v

/-- Python truthiness of a JSON value. -/
def truthy : JsonValue → Bool
  | .null => false
  | .bool b => b
  | .num n => n != 0
  | .str s => !s.isEmpty
  | .arr elems => !elems.isEmpty
  | .obj fields => !fields.isEmpty

/-- Python `dict.get(k)` on a parsed JSON object. -/
def dictGet (fields : List (String × JsonValue)) (k : String) : Option JsonValue :=
  (fields.find? (fun kv => kv.1 == k)).map (fun kv => kv.2)

/-- Python `dict.get(k, default)` on a parsed JSON object. -/
def dictGetD (fields : List (String × JsonValue)) (k : String) (d : JsonValue) : JsonValue :=
  (dictGet fields k).getD d

/-- Outcome of the single HTTP GET performed inside `make_neodb_request`:
the response has a 2xx status and a parseable JSON body (`success`),
`raise_for_status` raises `httpx.HTTPStatusError` (`httpError`), or any other
exception occurs (network error, timeout, unparseable body: `transportError`). -/
inductive HttpOutcome where
  | success (body : JsonValue)
  | httpError (status : Nat)
  | transportError

/-- Dynamic shape of the value returned by `make_neodb_request`: either a bare
JSON value (the `return response.json()` path) or a 2-tuple whose first
component is `None` or a JSON value and whose second is an int (the
`return None, code` paths). -/
inductive RequestResult where
  | single (v : JsonValue)
  | pair (fst : Option JsonValue) (snd : Nat)

/-- Embeds `make_neodb_request`: the `try` body returns the parsed JSON alone;
the `except httpx.HTTPStatusError` clause returns `None, e.response.status_code`;
the catch-all `except Exception` clause returns `None, 500`. -/
def make_neodb_request : HttpOutcome → RequestResult
  | .success body => .single body
  | .httpError status => .pair none status
  | .transportError => .pair none 500

/-- Raised Python exception, by kind and message. -/
inductive PyError where
  | valueError (msg : String)
  | typeError (msg : String)
  | attributeError (msg : String)
  deriving DecidableEq, Repr

/-- Dynamic Python value bound by tuple unpacking at the call sites. -/
inductive PyVal where
  | vnone
  | vint (n : Int)
  | vjson (v : JsonValue)

/-- Python `a, b = result` on the value returned by `make_neodb_request`:
a 2-tuple unpacks to its components; a bare JSON value is iterated (a dict
yields its keys, a list its elements, a string its characters) and must yield
exactly two items, else `ValueError`; non-iterables raise `TypeError`. -/
def unpack2 : RequestResult → Except PyError (PyVal × PyVal)
  | .pair f s =>
    .ok (match f with | none => .vnone | some v => .vjson v, .vint (Int.ofNat s))
  | .single v =>
    match v with
    | .obj [k1, k2] => .ok (.vjson (.str k1.1), .vjson (.str k2.1))
    | .obj [] | .obj [_] => .error (.valueError "not enough values to unpack (expected 2)")
    | .obj _ => .error (.valueError "too many values to unpack (expected 2)")
    | .arr [a, b] => .ok (.vjson a, .vjson b)
    | .arr [] | .arr [_] => .error (.valueError "not enough values to unpack (expected 2)")
    | .arr _ => .error (.valueError "too many values to unpack (expected 2)")
    | .str s =>
      match s.toList with
      | [a, b] => .ok (.vjson (.str (String.mk [a])), .vjson (.str (String.mk [b])))
      | [] | [_] => .error (.valueError "not enough values to unpack (expected 2)")
      | _ => .error (.valueError "too many values to unpack (expected 2)")
    | _ => .error (.typeError "cannot unpack non-iterable object")

/-- Python equality between an unpacked value and an int literal
(`status_code != 200`, dict-key lookup on `{401: ...}`). -/
def pyValEqNat : PyVal → Nat → Bool
  | .vint n, m => n == Int.ofNat m
  | .vjson (.num n), m => n == Int.ofNat m
  | .vjson (.bool b), m => (if b then (1 : Int) else 0) == Int.ofNat m
  | _, _ => false

/-- Python `str()` of an unpacked value. -/
def pyValStr : PyVal → String
  | .vnone => "None"
  | .vint n => toString n
  | .vjson v => pyStr v

/-- Python truthiness of an unpacked value. -/
def pyTruthy : PyVal → Bool
  | .vnone => false
  | .vint n => n != 0
  | .vjson v => truthy v

/-- Python truthiness of the raw value returned by `make_neodb_request`
(used unpacked-free by the `get-book` call site): a 2-tuple is non-empty,
hence always truthy. -/
def reqTruthy : RequestResult → Bool
  | .single v => truthy v
  | .pair _ _ => true

/-- Embeds `format_book`: an f-string over `book.get` with the four defaults,
terminated by the separator line. -/
def format_book (book : List (String × JsonValue)) : String :=
  "Title: " ++ pyStr (dictGetD book "title" (.str "Unknown")) ++ "\n" ++
  "Author: " ++ pyStr (dictGetD book "author" (.str "Unknown")) ++ "\n" ++
  "Rating: " ++ pyStr (dictGetD book "rating" (.str "N/A")) ++ "\n" ++
  "Description: " ++ pyStr (dictGetD book "description" (.str "No description available")) ++ "\n" ++
  "---"


/-- Content block variants of `mcp.types` as used in the handler signature
(`TextContent | ImageContent | EmbeddedResource`); the adapter only ever
constructs `TextContent`. -/
inductive ContentBlock where
  | text (text : String)
  | image (data : String) (mimeType : String)
  | embeddedResource (resource : String)
  deriving DecidableEq, Repr

/-- The `server.config` dict set in `main`, read with `.get`; each entry may be
absent or hold any command-line string, including the empty one. -/
structure ServerConfig where
  api_base : Option String
  access_token : Option String
  deriving DecidableEq, Repr

/-- Python falsiness of `server.config.get(k)`: absent key or empty string. -/
def optFalsy : Option String → Bool
  | none => true
  | some s => s.isEmpty

/-- Observable outcome of one `handle_call_tool` invocation: the value returned
or exception raised, plus the endpoints of the HTTP requests issued, in order. -/
structure CallOutcome where
  result : Except PyError (List ContentBlock)
  requests : List String

/-- Embeds the user-summary f-string of the `get-user-info` branch. -/
def userInfoText (user_data : List (String × JsonValue)) : String :=
  "User Information:\n" ++
  "Username: " ++ pyStr (dictGetD user_data "username" (.str "Unknown")) ++ "\n" ++
  "Display Name: " ++ pyStr (dictGetD user_data "display_name" (.str "Unknown")) ++ "\n" ++
  "Email: " ++ pyStr (dictGetD user_data "email" (.str "Not provided")) ++ "\n" ++
  "URL: " ++ pyStr (dictGetD user_data "url" (.str "Not provided")) ++ "\n" ++
  "Account Created: " ++ pyStr (dictGetD user_data "created_at" (.str "Unknown")) ++ "\n"

/-- Embeds the `get-user-info` branch of `handle_call_tool`: unpack the request
result into `user_data, status_code`, map non-200 statuses through
`{401: "Unauthorized"}` with a generic fallback, report a falsy body, else
format via `user_data.get` (raising `AttributeError` on a non-dict). -/
def handleGetUserInfo (world : String → HttpOutcome) : CallOutcome :=
  match unpack2 (make_neodb_request (world "/api/me")) with
  | .error e => ⟨.error e, ["/api/me"]⟩
  | .ok (user_data, status_code) =>
    if !(pyValEqNat status_code 200) then
      ⟨.ok [.text (if pyValEqNat status_code 401 then "Unauthorized"
        else "Request failed with status code: " ++ pyValStr status_code)], ["/api/me"]⟩
    else if !(pyTruthy user_data) then
      ⟨.ok [.text "Failed to retrieve user information"], ["/api/me"]⟩
    else
      match user_data with
      | .vjson (.obj fields) => ⟨.ok [.text (userInfoText fields)], ["/api/me"]⟩
      | _ => ⟨.error (.attributeError "object has no attribute get"), ["/api/me"]⟩

/-- Evaluates the `[format_book(book) for book in books]` comprehension over a
list: each element must be a dict, else `.get` raises `AttributeError`. -/
def formatBooksList : List JsonValue → Except PyError (List String)
  | [] => .ok []
  | .obj fields :: rest => (formatBooksList rest).map (fun tail => format_book fields :: tail)
  | _ :: _ => .error (.attributeError "object has no attribute get")

/-- Iterates the `books` value in the comprehension: a list yields its elements,
a string its characters, a dict its keys; other values are not iterable. -/
def iterBooks : JsonValue → Except PyError (List String)
  | .arr elems => formatBooksList elems
  | .str s => formatBooksList (s.toList.map (fun c => .str (String.mk [c])))
  | .obj fields => formatBooksList (fields.map (fun kv => .str kv.1))
  | _ => .error (.typeError "object is not iterable")

/-- Embeds the `search-books` branch of `handle_call_tool`: falsy `query` raises
`ValueError`; otherwise unpack the request result into
`search_data, status_code`, map non-200 statuses through `{400: "Bad request"}`
with a generic fallback, report a falsy body, else read `data` (default `[]`),
report an empty list, else format every book under the search header. -/
def handleSearchBooks (world : String → HttpOutcome)
    (arguments : Option (List (String × JsonValue))) : CallOutcome :=
  match arguments with
  | none => ⟨.error (.attributeError "NoneType object has no attribute get"), []⟩
  | some args =>
    match dictGet args "query" with
    | none => ⟨.error (.valueError "Missing query parameter"), []⟩
    | some q =>
      if !(truthy q) then ⟨.error (.valueError "Missing query parameter"), []⟩
      else
        let ep := "/api/catalog/search?query=" ++ pyStr q ++ "&page=1"
        match unpack2 (make_neodb_request (world ep)) with
        | .error e => ⟨.error e, [ep]⟩
        | .ok (search_data, status_code) =>
          if !(pyValEqNat status_code 200) then
            ⟨.ok [.text (if pyValEqNat status_code 400 then "Bad request"
              else "Request failed with status code: " ++ pyValStr status_code)], [ep]⟩
          else if !(pyTruthy search_data) then
            ⟨.ok [.text "Failed to search books"], [ep]⟩
          else
            match search_data with
            | .vjson (.obj fields) =>
              let books := dictGetD fields "data" (.arr [])
              if !(truthy books) then
                ⟨.ok [.text ("No books found for query: " ++ pyStr q)], [ep]⟩
              else
                match iterBooks books with
                | .error e => ⟨.error e, [ep]⟩
                | .ok formatted =>
                  ⟨.ok [.text ("Search results for \x27" ++ pyStr q ++ "\x27:\n\n" ++
                    String.intercalate "\n" formatted)], [ep]⟩
            | _ => ⟨.error (.attributeError "object has no attribute get"), [ep]⟩

/-- Embeds the `get-book` branch of `handle_call_tool`: falsy `book_id` raises
`ValueError`; the request result is used unpacked-free as `book_data`, so a
falsy value yields the failure text and anything else is passed to
`format_book` (raising `AttributeError` unless it is a bare dict). -/
def handleGetBook (world : String → HttpOutcome)
    (arguments : Option (List (String × JsonValue))) : CallOutcome :=
  match arguments with
  | none => ⟨.error (.attributeError "NoneType object has no attribute get"), []⟩
  | some args =>
    match dictGet args "book_id" with
    | none => ⟨.error (.valueError "Missing book_id parameter"), []⟩
    | some bid =>
      if !(truthy bid) then ⟨.error (.valueError "Missing book_id parameter"), []⟩
      else
        let ep := "/api/book/" ++ pyStr bid
        let book_data := make_neodb_request (world ep)
        if !(reqTruthy book_data) then
          ⟨.ok [.text ("Failed to retrieve book with ID: " ++ pyStr bid)], [ep]⟩
        else
          match book_data with
          | .single (.obj fields) => ⟨.ok [.text (format_book fields)], [ep]⟩
          | _ => ⟨.error (.attributeError "object has no attribute get"), [ep]⟩

/-- Embeds `handle_call_tool`: the configuration check precedes the name
dispatch; an unrecognized name raises `ValueError`. The `world` argument gives
the outcome the remote service would produce for each requested endpoint
(base URL, auth header and 30s timeout are fixed per invocation and absorbed
into it). -/
def handle_call_tool (cfg : ServerConfig) (world : String → HttpOutcome)
    (name : String) (arguments : Option (List (String × JsonValue))) : CallOutcome :=
  if optFalsy cfg.api_base || optFalsy cfg.access_token then
    ⟨.ok [.text "Server configuration missing API base URL or access token"], []⟩
  else if name = "get-user-info" then handleGetUserInfo world
  else if name = "search-books" then handleSearchBooks world arguments
  else if name = "get-book" then handleGetBook world arguments
  else ⟨.error (.valueError ("Unknown tool: " ++ name)), []⟩

/-- JSON-Schema shape of a tool's `inputSchema`: its `type`, the declared
property names with their `type` fields, and the `required` list. -/
structure InputSchema where
  type : String
  properties : List (String × String)
  required : List String
  deriving DecidableEq, Repr

/-- One `types.Tool` descriptor. -/
structure Tool where
  name : String
  description : String
  inputSchema : InputSchema
  deriving DecidableEq, Repr

/-- Embeds `handle_list_tools`: the three static descriptors. -/
def handle_list_tools : List Tool :=
  [⟨"get-user-info", "Get current user\x27s basic info", ⟨"object", [], []⟩⟩,
   ⟨"search-books", "Search items in catalog", ⟨"object", [("query", "string")], ["query"]⟩⟩,
   ⟨"get-book", "Get detailed information about a specific book", ⟨"object", [("book_id", "string")], ["book_id"]⟩⟩]

/-- Claim C1: `make_neodb_request` honours the error clauses of the two-value
contract, but on success it returns the bare parsed body, not the claimed pair
`(parsed_json_body, 200)`: evaluated at a successful response with body
`{"username": "alice"}`, the result is the single value, and differs from the
pair the claim requires. -/
theorem make_neodb_request_success_returns_bare_body :
    make_neodb_request (.httpError 404) = .pair none 404 ∧
    make_neodb_request .transportError = .pair none 500 ∧
    make_neodb_request (.success (.obj [("username", .str "alice")]))
      = .single (.obj [("username", .str "alice")]) ∧
    make_neodb_request (.success (.obj [("username", .str "alice")]))
      ≠ .pair (some (.obj [("username", .str "alice")])) 200 :=
  ⟨rfl, rfl, rfl, fun h => RequestResult.noConfusion h⟩

/-- Claim C2: with valid configuration and non-empty `book_id`, a remote HTTP
error (404) or a transport failure makes `get-book` raise `AttributeError`
(the truthy error tuple is passed to `format_book`), instead of returning the
claimed failure text block. -/
theorem get_book_error_outcome_raises :
    (handle_call_tool ⟨some "https://neodb.social", some "tok"⟩ (fun _ => .httpError 404)
        "get-book" (some [("book_id", .str "x")])).result
      = .error (.attributeError "object has no attribute get") ∧
    (handle_call_tool ⟨some "https://neodb.social", some "tok"⟩ (fun _ => .transportError)
        "get-book" (some [("book_id", .str "x")])).result
      = .error (.attributeError "object has no attribute get") :=
  ⟨rfl, rfl⟩

/-- Claim C3: the 400 clause holds (a mocked 400 yields exactly "Bad request"),
but the 200 clauses fail: a 200 response with body `{"data": []}` makes
`search-books` raise `ValueError` while unpacking the one-key dict, instead of
returning "No books found for query: dune". -/
theorem search_books_success_path_raises :
    (handle_call_tool ⟨some "https://neodb.social", some "tok"⟩ (fun _ => .httpError 400)
        "search-books" (some [("query", .str "dune")])).result
      = .ok [.text "Bad request"] ∧
    (handle_call_tool ⟨some "https://neodb.social", some "tok"⟩
        (fun _ => .success (.obj [("data", .arr [])]))
        "search-books" (some [("query", .str "dune")])).result
      = .error (.valueError "not enough values to unpack (expected 2)") :=
  ⟨rfl, rfl⟩

/-- Claim C4: the non-200 clauses hold (401 yields exactly "Unauthorized", 503
the generic message), but the 200 clause fails: a 200 response with body
`{"username": "alice"}` makes `get-user-info` raise `ValueError` while
unpacking the one-key dict, instead of returning the labeled summary with
defaulted fields. -/
theorem get_user_info_success_path_raises :
    (handle_call_tool ⟨some "https://neodb.social", some "tok"⟩ (fun _ => .httpError 401)
        "get-user-info" none).result
      = .ok [.text "Unauthorized"] ∧
    (handle_call_tool ⟨some "https://neodb.social", some "tok"⟩ (fun _ => .httpError 503)
        "get-user-info" none).result
      = .ok [.text "Request failed with status code: 503"] ∧
    (handle_call_tool ⟨some "https://neodb.social", some "tok"⟩
        (fun _ => .success (.obj [("username", .str "alice")]))
        "get-user-info" none).result
      = .error (.valueError "not enough values to unpack (expected 2)") :=
  ⟨rfl, rfl, rfl⟩

/-- Claim C5: `format_book` is total over every book mapping and always returns
the four-line Title/Author/Rating/Description block terminated by the `---`
separator line, with each absent field replaced by its default sentinel. -/
theorem format_book_total_with_defaults (book : List (String × JsonValue)) :
    ∃ t a r d : String,
      format_book book =
        "Title: " ++ t ++ "\n" ++ "Author: " ++ a ++ "\n" ++ "Rating: " ++ r ++ "\n" ++
        "Description: " ++ d ++ "\n" ++ "---" ∧
      (dictGet book "title" = none → t = "Unknown") ∧
      (dictGet book "author" = none → a = "Unknown") ∧
      (dictGet book "rating" = none → r = "N/A") ∧
      (dictGet book "description" = none → d = "No description available") := by
  refine ⟨pyStr (dictGetD book "title" (.str "Unknown")),
      pyStr (dictGetD book "author" (.str "Unknown")),
      pyStr (dictGetD book "rating" (.str "N/A")),
      pyStr (dictGetD book "description" (.str "No description available")),
      rfl, ?_, ?_, ?_, ?_⟩ <;>
    intro h <;> simp [dictGetD, h, pyStr]

/-- Witness for C5 at the book record missing all fields. -/
theorem format_book_total_with_defaults_witness :
    ∃ t a r d : String,
      format_book [] =
        "Title: " ++ t ++ "\n" ++ "Author: " ++ a ++ "\n" ++ "Rating: " ++ r ++ "\n" ++
        "Description: " ++ d ++ "\n" ++ "---" ∧
      (dictGet [] "title" = none → t = "Unknown") ∧
      (dictGet [] "author" = none → a = "Unknown") ∧
      (dictGet [] "rating" = none → r = "N/A") ∧
      (dictGet [] "description" = none → d = "No description available") :=
  format_book_total_with_defaults []

/-- Claim C6: whenever `api_base` or `access_token` is missing or empty, every
tool call returns a single text block containing the word "configuration",
raises nothing, and issues no network request. -/
theorem missing_config_returns_text (cfg : ServerConfig) (world : String → HttpOutcome)
    (name : String) (arguments : Option (List (String × JsonValue)))
    (h : optFalsy cfg.api_base = true ∨ optFalsy cfg.access_token = true) :
    ∃ pre post : String,
      (handle_call_tool cfg world name arguments).result
        = .ok [.text (pre ++ "configuration" ++ post)] ∧
      (handle_call_tool cfg world name arguments).requests = [] := by
  have hcond : (optFalsy cfg.api_base || optFalsy cfg.access_token) = true := by
    rcases h with h | h <;> simp [h]
  refine ⟨"Server ", " missing API base URL or access token", ?_, ?_⟩ <;>
    simp [handle_call_tool, hcond]

/-- Witness for C6 at an absent base URL. -/
theorem missing_config_returns_text_witness :
    ∃ pre post : String,
      (handle_call_tool ⟨none, some "tok"⟩ (fun _ => .transportError) "get-book" none).result
        = .ok [.text (pre ++ "configuration" ++ post)] ∧
      (handle_call_tool ⟨none, some "tok"⟩ (fun _ => .transportError) "get-book" none).requests
        = [] :=
  missing_config_returns_text ⟨none, some "tok"⟩ (fun _ => .transportError) "get-book" none
    (Or.inl rfl)

/-- Claim C7: with valid configuration, `search-books` with an absent or empty
`query` and `get-book` with an absent or empty `book_id` both raise the
invalid-argument `ValueError` and issue no network request. -/
theorem missing_required_argument_raises (cfg : ServerConfig) (world : String → HttpOutcome)
    (args1 args2 : List (String × JsonValue))
    (hbase : optFalsy cfg.api_base = false) (htok : optFalsy cfg.access_token = false)
    (hq : dictGet args1 "query" = none ∨ dictGet args1 "query" = some (.str ""))
    (hb : dictGet args2 "book_id" = none ∨ dictGet args2 "book_id" = some (.str "")) :
    ((handle_call_tool cfg world "search-books" (some args1)).result
        = .error (.valueError "Missing query parameter") ∧
      (handle_call_tool cfg world "search-books" (some args1)).requests = []) ∧
    ((handle_call_tool cfg world "get-book" (some args2)).result
        = .error (.valueError "Missing book_id parameter") ∧
      (handle_call_tool cfg world "get-book" (some args2)).requests = []) := by
  have hemp : ("" : String).isEmpty = true := rfl
  refine ⟨⟨?_, ?_⟩, ?_, ?_⟩
  · rcases hq with h | h <;>
      simp [handle_call_tool, hbase, htok, handleSearchBooks, h, truthy, hemp]
  · rcases hq with h | h <;>
      simp [handle_call_tool, hbase, htok, handleSearchBooks, h, truthy, hemp]
  · rcases hb with h | h <;>
      simp [handle_call_tool, hbase, htok, handleGetBook, h, truthy, hemp]
  · rcases hb with h | h <;>
      simp [handle_call_tool, hbase, htok, handleGetBook, h, truthy, hemp]

/-- Witness for C7 with empty argument mappings and an explicit empty string. -/
theorem missing_required_argument_raises_witness :
    ((handle_call_tool ⟨some "https://neodb.social", some "tok"⟩ (fun _ => .transportError)
        "search-books" (some [])).result
        = .error (.valueError "Missing query parameter") ∧
      (handle_call_tool ⟨some "https://neodb.social", some "tok"⟩ (fun _ => .transportError)
        "search-books" (some [])).requests = []) ∧
    ((handle_call_tool ⟨some "https://neodb.social", some "tok"⟩ (fun _ => .transportError)
        "get-book" (some [("book_id", .str "")])).result
        = .error (.valueError "Missing book_id parameter") ∧
      (handle_call_tool ⟨some "https://neodb.social", some "tok"⟩ (fun _ => .transportError)
        "get-book" (some [("book_id", .str "")])).requests = []) :=
  missing_required_argument_raises ⟨some "https://neodb.social", some "tok"⟩
    (fun _ => .transportError) [] [("book_id", .str "")] rfl rfl (Or.inl rfl) (Or.inr rfl)

/-- Counterexample to C8: the configuration check precedes name dispatch, so
invoking the unknown name "bogus" with missing configuration returns the
configuration text block instead of raising the unknown-tool error. -/
theorem unknown_tool_without_config_returns_text :
    (handle_call_tool ⟨none, none⟩ (fun _ => .transportError) "bogus" none).result
      = .ok [.text "Server configuration missing API base URL or access token"] ∧
    (handle_call_tool ⟨none, none⟩ (fun _ => .transportError) "bogus" none).result
      ≠ .error (.valueError ("Unknown tool: " ++ "bogus")) :=
  ⟨rfl, fun h => Except.noConfusion h⟩

/-- Claim C8 as amended: with valid (non-empty) configuration, every name other
than the three known identifiers raises the unknown-tool `ValueError` — a hard
failure, not a text result — and issues no network request. -/
theorem unknown_tool_with_config_raises (cfg : ServerConfig) (world : String → HttpOutcome)
    (name : String) (arguments : Option (List (String × JsonValue)))
    (hbase : optFalsy cfg.api_base = false) (htok : optFalsy cfg.access_token = false)
    (h1 : name ≠ "get-user-info") (h2 : name ≠ "search-books") (h3 : name ≠ "get-book") :
    (handle_call_tool cfg world name arguments).result
        = .error (.valueError ("Unknown tool: " ++ name)) ∧
    (handle_call_tool cfg world name arguments).requests = [] := by
  constructor <;> simp [handle_call_tool, hbase, htok, h1, h2, h3]

/-- Witness for C8 (amended) at the name "bogus". -/
theorem unknown_tool_with_config_raises_witness :
    (handle_call_tool ⟨some "https://neodb.social", some "tok"⟩ (fun _ => .transportError)
        "bogus" none).result
        = .error (.valueError ("Unknown tool: " ++ "bogus")) ∧
    (handle_call_tool ⟨some "https://neodb.social", some "tok"⟩ (fun _ => .transportError)
        "bogus" none).requests = [] :=
  unknown_tool_with_config_raises ⟨some "https://neodb.social", some "tok"⟩
    (fun _ => .transportError) "bogus" none rfl rfl (by decide) (by decide) (by decide)

/-- Claim C9: `handle_list_tools` always returns exactly 3 descriptors named
get-user-info, search-books and get-book, whose required-parameter sets are
respectively empty, containing query and containing book_id. -/
theorem list_tools_three_descriptors :
    handle_list_tools.length = 3 ∧
    handle_list_tools.map Tool.name = ["get-user-info", "search-books", "get-book"] ∧
    handle_list_tools.map (fun t => t.inputSchema.required) = [[], ["query"], ["book_id"]] :=
  ⟨rfl, rfl, rfl⟩

/-- Every successful return of the `get-user-info` branch is one text block. -/
theorem handleGetUserInfo_single_text (world : String → HttpOutcome)
    (blocks : List ContentBlock) (h : (handleGetUserInfo world).result = .ok blocks) :
    ∃ s, blocks = [ContentBlock.text s] := by
  unfold handleGetUserInfo at h
  repeat' (first | split at h | dsimp only at h)
  all_goals first
    | exact Except.noConfusion h
    | exact ⟨_, (Except.ok.inj h).symm⟩

/-- Every successful return of the `search-books` branch is one text block. -/
theorem handleSearchBooks_single_text (world : String → HttpOutcome)
    (arguments : Option (List (String × JsonValue)))
    (blocks : List ContentBlock) (h : (handleSearchBooks world arguments).result = .ok blocks) :
    ∃ s, blocks = [ContentBlock.text s] := by
  unfold handleSearchBooks at h
  repeat' (first | split at h | dsimp only at h)
  all_goals first
    | exact Except.noConfusion h
    | exact ⟨_, (Except.ok.inj h).symm⟩

/-- Every successful return of the `get-book` branch is one text block. -/
theorem handleGetBook_single_text (world : String → HttpOutcome)
    (arguments : Option (List (String × JsonValue)))
    (blocks : List ContentBlock) (h : (handleGetBook world arguments).result = .ok blocks) :
    ∃ s, blocks = [ContentBlock.text s] := by
  unfold handleGetBook at h
  repeat' (first | split at h | dsimp only at h)
  all_goals first
    | exact Except.noConfusion h
    | exact ⟨_, (Except.ok.inj h).symm⟩

/-- Claim C10: every non-raising return of `handle_call_tool`, for every tool
name, arguments, configuration and remote behaviour, is a sequence of exactly
one content block, and that block is the text variant. -/
theorem call_tool_single_text_block (cfg : ServerConfig) (world : String → HttpOutcome)
    (name : String) (arguments : Option (List (String × JsonValue)))
    (blocks : List ContentBlock)
    (h : (handle_call_tool cfg world name arguments).result = .ok blocks) :
    ∃ s, blocks = [ContentBlock.text s] := by
  unfold handle_call_tool at h
  split at h
  · exact ⟨_, (Except.ok.inj h).symm⟩
  · split at h
    · exact handleGetUserInfo_single_text _ _ h
    · split at h
      · exact handleSearchBooks_single_text _ _ _ h
      · split at h
        · exact handleGetBook_single_text _ _ _ h
        · exact Except.noConfusion h

/-- Witness for C10 at a concrete invocation returning the configuration text. -/
theorem call_tool_single_text_block_witness :
    ∃ s, [ContentBlock.text "Server configuration missing API base URL or access token"]
      = [ContentBlock.text s] :=
  call_tool_single_text_block ⟨none, none⟩ (fun _ => HttpOutcome.transportError) "get-book" none
    [ContentBlock.text "Server configuration missing API base URL or access token"] rfl
